import Mathlib

/-!
Shallow embedding of the dfVFS layered-access core, translated from the
Python sources:

* `dfvfs/vfs/tsk_partition_file_entry.py` — the TSK partition directory
  enumerator (`TSKPartitionDirectory._EntriesGenerator`) and partition file
  entry (`TSKPartitionFileEntry._GetStat`, `GetFileObject`);
* `dfvfs/vfs/tar_file_system.py` — the TAR file system (`_Open`,
  `FileEntryExistsByPathSpec`, `GetFileEntryByPathSpec`);
* `dfvfs/file_io/vhdi_file_io.py` — the VHD file-like object
  (`VhdiFile._OpenFileObject`).

Native pytsk3 volume records are modelled as plain records with the three
attributes the code reads (allocation flag, start sector, sector count);
the `dfvfs.lib.tsk_partition` accessor helpers wrap those attributes.
-/

namespace DFVFS

/-- A native TSK volume-system partition record, holding the attributes the
dfVFS code reads from a `pytsk3.TSK_VS_PART_INFO` object: the allocation
flag, the optional start sector and the optional number of sectors. -/
structure TskVsPart where
  allocated : Bool
  start : Option Nat
  len : Option Nat
deriving DecidableEq, Repr

/-- A native TSK volume: its bytes-per-sector value and its partition
records in on-disk order (the order the native iterator walks them). -/
structure TskVolume where
  bytesPerSector : Nat
  parts : List TskVsPart
deriving DecidableEq, Repr

/-- Modelled from the spec: `dfvfs.lib.tsk_partition.TSKVsPartIsAllocated`
(the module is not under src/) reports the native record's allocation
flag. -/
def TSKVsPartIsAllocated (p : TskVsPart) : Bool :=
  p.allocated

/-- Modelled from the spec: `dfvfs.lib.tsk_partition.TSKVsPartGetStartSector`
(the module is not under src/) reports the record's start sector when the
record has one. -/
def TSKVsPartGetStartSector (p : TskVsPart) : Option Nat :=
  p.start

/-- Modelled from the spec: `dfvfs.lib.tsk_partition.TSKVsPartGetNumberOfSectors`
(the module is not under src/) reports the record's number of sectors when
the record has one. -/
def TSKVsPartGetNumberOfSectors (p : TskVsPart) : Option Nat :=
  p.len

/-- Modelled from the spec: `dfvfs.lib.tsk_partition.TSKVolumeGetBytesPerSector`
(the module is not under src/) reports the volume's bytes-per-sector
value. -/
def TSKVolumeGetBytesPerSector (v : TskVolume) : Nat :=
  v.bytesPerSector

/-- A TSK partition path specification (`path.TSKPartitionPathSpec`): an
optional location, an optional structural part index, an optional byte
start offset, and the parent path specification.  The parent layer's
descriptor type is abstract (`α`), since the code only threads it
through. -/
structure TSKPartitionPathSpec (α : Type) where
  location : Option String
  part_index : Option Nat
  start_offset : Option Nat
  parent : Option α
deriving DecidableEq, Repr

/-- Modelled from the spec: the TSK partition file system's `LOCATION_ROOT`
(its module is not under src/) is the root location string. -/
def LOCATION_ROOT : String :=
  "/"

/-- The loop body of `TSKPartitionDirectory._EntriesGenerator`
(tsk_partition_file_entry.py lines 62-79): walk the records keeping the
zero-based `part_index` over every record and the one-based
`partition_index` over allocated records only; an allocated record gets
location `/p<partition_index>`; a record with a start sector gets
`start_offset = start_sector * bytes_per_sector`; every yielded path
specification gets the enumerating entry's own parent. -/
def entriesLoop (parent : Option α) (bytesPerSector : Nat) :
    List TskVsPart → Nat → Nat → List (TSKPartitionPathSpec α)
  | [], _, _ => []
  | p :: rest, part_index, partition_index =>
      let partition_index :=
        if TSKVsPartIsAllocated p then partition_index + 1 else partition_index
      let location :=
        if TSKVsPartIsAllocated p then
          some ("/p" ++ toString partition_index)
        else none
      let start_offset :=
        (TSKVsPartGetStartSector p).map (fun s => s * bytesPerSector)
      { location := location, part_index := some part_index,
        start_offset := start_offset, parent := parent } ::
        entriesLoop parent bytesPerSector rest (part_index + 1) partition_index

/-- `TSKPartitionDirectory._EntriesGenerator`: only the virtual root
directory (location `/`, no part index, no start offset) has entries; the
entries come from walking the native volume's records with `entriesLoop`
starting both counters at zero. -/
def EntriesGenerator (ps : TSKPartitionPathSpec α) (vol : TskVolume) :
    List (TSKPartitionPathSpec α) :=
  if ps.part_index.isSome || ps.start_offset.isSome then []
  else if ps.location ≠ some LOCATION_ROOT then []
  else entriesLoop ps.parent (TSKVolumeGetBytesPerSector vol) vol.parts 0 0

/-- The allocated-only one-based labelling the claim describes: walking the
records with the allocated counter at `j`, an allocated record is labelled
`/p(j+1)` and bumps the counter, an unallocated record gets no location. -/
def locLabels (j : Nat) : List TskVsPart → List (Option String)
  | [] => []
  | p :: rest =>
      if p.allocated then
        some ("/p" ++ toString (j + 1)) :: locLabels (j + 1) rest
      else
        none :: locLabels j rest

/-- The three-record example volume: records 1 and 3 allocated, record 2
not, each record spanning some sectors. -/
def exampleVol3 : TskVolume :=
  { bytesPerSector := 512,
    parts :=
      [ { allocated := true, start := some 1, len := some 100 },
        { allocated := false, start := some 101, len := some 50 },
        { allocated := true, start := some 151, len := some 200 } ] }

/-- A root path specification for the example, with an abstract parent
identifier. -/
def exampleRootSpec : TSKPartitionPathSpec Nat :=
  { location := some "/", part_index := none, start_offset := none,
    parent := some 7 }

theorem entriesLoop_map_part_index (parent : Option α) (bps : Nat)
    (parts : List TskVsPart) :
    ∀ (i j : Nat),
      (entriesLoop parent bps parts i j).map (fun s => s.part_index) =
        (List.range' i parts.length).map some := by
  induction parts with
  | nil => intro i j; simp [entriesLoop]
  | cons p rest ih =>
      intro i j
      simp [entriesLoop, List.range'_succ, ih]

theorem entriesLoop_map_location (parent : Option α) (bps : Nat) :
    ∀ (parts : List TskVsPart) (i j : Nat),
      (entriesLoop parent bps parts i j).map (fun s => s.location) =
        locLabels j parts := by
  intro parts
  induction parts with
  | nil => intro i j; simp [entriesLoop, locLabels]
  | cons p rest ih =>
      intro i j
      by_cases hp : p.allocated
      · simp [entriesLoop, locLabels, TSKVsPartIsAllocated, hp, ih]
      · simp [entriesLoop, locLabels, TSKVsPartIsAllocated, hp, ih]

theorem entriesLoop_mem_spec (parent : Option α) (bps : Nat)
    (parts : List TskVsPart) :
    ∀ (i j : Nat) (s : TSKPartitionPathSpec α),
      s ∈ entriesLoop parent bps parts i j →
      s.parent = parent ∧
      ∃ k rec, parts[k]? = some rec ∧ s.part_index = some (i + k) ∧
        s.start_offset = rec.start.map (fun x => x * bps) ∧
        (s.location.isSome = true ↔ rec.allocated = true) := by
  induction parts with
  | nil => intro i j s hs; simp [entriesLoop] at hs
  | cons p rest ih =>
      intro i j s hs
      simp only [entriesLoop, List.mem_cons] at hs
      rcases hs with hs | hs
      · subst hs
        refine ⟨rfl, 0, p, by simp, by simp, ?_, ?_⟩
        · simp [TSKVsPartGetStartSector]
        · by_cases hp : p.allocated <;>
            simp [TSKVsPartIsAllocated, hp]
      · obtain ⟨hpar, k, rec, hk, hpi, hso, hloc⟩ := ih (i + 1) _ s hs
        refine ⟨hpar, k + 1, rec, by simpa using hk, ?_, hso, hloc⟩
        rw [hpi]
        congr 1
        omega

/-- C1: partition enumeration keeps a zero-based structural index over every
record together with a one-based allocated-only index labelling allocated
records `/p1`, `/p2`, …; on the three-record volume with records 1 and 3
allocated, the addressable entries are exactly `/p1` at structural index 0
and `/p2` at structural index 2. -/
theorem C1_two_counters (vol : TskVolume) (ps : TSKPartitionPathSpec Nat)
    (hloc : ps.location = some LOCATION_ROOT)
    (hpi : ps.part_index = none) (hso : ps.start_offset = none) :
    ((EntriesGenerator ps vol).map (fun s => s.part_index) =
        (List.range' 0 vol.parts.length).map some)
    ∧ ((EntriesGenerator ps vol).map (fun s => s.location) =
        locLabels 0 vol.parts)
    ∧ ((EntriesGenerator exampleRootSpec exampleVol3).filterMap
          (fun s => s.location.map (fun l => (l, s.part_index))) =
        [("/p1", some 0), ("/p2", some 2)]) := by
  have hgen : EntriesGenerator ps vol =
      entriesLoop ps.parent (TSKVolumeGetBytesPerSector vol) vol.parts 0 0 := by
    simp [EntriesGenerator, hloc, hpi, hso]
  refine ⟨?_, ?_, ?_⟩
  · rw [hgen, entriesLoop_map_part_index]
  · rw [hgen, entriesLoop_map_location]
  · decide

/-- Witness for C1 at the example volume and root path specification. -/
theorem C1_two_counters_witness :
    ((EntriesGenerator exampleRootSpec exampleVol3).map
        (fun s => s.part_index) =
      (List.range' 0 exampleVol3.parts.length).map some) ∧
    ((EntriesGenerator exampleRootSpec exampleVol3).map
        (fun s => s.location) = locLabels 0 exampleVol3.parts) := by
  have h := C1_two_counters exampleVol3 exampleRootSpec rfl rfl rfl
  exact ⟨h.1, h.2.1⟩

/-- C2: every yielded child descriptor carries its record's structural
index, a start offset `start_sector * bytes_per_sector` exactly when the
record reports a start sector (none otherwise), an addressable location
exactly when the record is allocated, and the enumerating entry's own
parent (the grandparent layer) as its parent. -/
theorem C2_child_descriptor_fields (vol : TskVolume)
    (ps s : TSKPartitionPathSpec α) (hs : s ∈ EntriesGenerator ps vol) :
    s.parent = ps.parent ∧
    ∃ k rec, vol.parts[k]? = some rec ∧ s.part_index = some k ∧
      s.start_offset = rec.start.map (fun x => x * vol.bytesPerSector) ∧
      (s.location.isSome = true ↔ rec.allocated = true) := by
  unfold EntriesGenerator at hs
  split at hs
  · simp at hs
  · split at hs
    · simp at hs
    · have h := entriesLoop_mem_spec ps.parent (TSKVolumeGetBytesPerSector vol)
        vol.parts 0 0 s hs
      simpa [TSKVolumeGetBytesPerSector] using h

/-- The first child descriptor the example enumeration yields. -/
def exampleFirstChild : TSKPartitionPathSpec Nat :=
  { location := some "/p1", part_index := some 0, start_offset := some 512,
    parent := some 7 }

/-- Witness for C2 at the example volume's first yielded descriptor. -/
theorem C2_child_descriptor_fields_witness :
    exampleFirstChild.parent = exampleRootSpec.parent ∧
    ∃ k rec, exampleVol3.parts[k]? = some rec ∧
      exampleFirstChild.part_index = some k ∧
      exampleFirstChild.start_offset =
        rec.start.map (fun x => x * exampleVol3.bytesPerSector) ∧
      (exampleFirstChild.location.isSome = true ↔ rec.allocated = true) :=
  C2_child_descriptor_fields exampleVol3 exampleRootSpec exampleFirstChild
    (by decide)

/-- The entry types a `vfs_stat.VFSStat` object distinguishes here. -/
inductive StatType where
  | file
  | directory
deriving DecidableEq, Repr

/-- A stat object (`vfs_stat.VFSStat`): the fields `_GetStat` may set,
each `none` when the code leaves it unset. -/
structure VFSStat where
  size : Option Nat
  type : Option StatType
  is_allocated : Option Bool
deriving DecidableEq, Repr

/-- The error raised by `_GetStat` (`errors.BackEndError`). -/
inductive BackEndError where
  | missingTskVsPart
deriving DecidableEq, Repr

/-- `TSKPartitionFileEntry._GetStat` (tsk_partition_file_entry.py lines
115-161): raise `BackEndError` when the entry is not virtual and its
native record is missing; set `size` to
`number_of_sectors * bytes_per_sector` only when the record's sector count
is truthy (present and nonzero); set `type` to directory for the virtual
entry and file otherwise; copy the allocation flag from the native record
for non-virtual entries.  The native record lookup result
(`GetTSKVsPart`) is passed in as `tsk_vs_part`. -/
def GetStat (is_virtual : Bool) (tsk_vs_part : Option TskVsPart)
    (vol : TskVolume) : Except BackEndError VFSStat :=
  if is_virtual = false ∧ tsk_vs_part = none then
    Except.error BackEndError.missingTskVsPart
  else
    let bytesPerSector := TSKVolumeGetBytesPerSector vol
    let size : Option Nat :=
      match tsk_vs_part with
      | some p =>
          match TSKVsPartGetNumberOfSectors p with
          | some n => if n ≠ 0 then some (n * bytesPerSector) else none
          | none => none
      | none => none
    let type : Option StatType :=
      if is_virtual then some StatType.directory else some StatType.file
    let is_allocated : Option Bool :=
      if is_virtual then none else tsk_vs_part.map TSKVsPartIsAllocated
    Except.ok { size := size, type := type, is_allocated := is_allocated }

/-- Evaluation of `_GetStat` on a non-virtual entry whose native record was
located. -/
theorem GetStat_eq_nonvirtual (rec : TskVsPart) (vol : TskVolume) :
    GetStat false (some rec) vol =
      Except.ok
        { size :=
            match rec.len with
            | some n => if n ≠ 0 then some (n * vol.bytesPerSector) else none
            | none => none,
          type := some StatType.file,
          is_allocated := some rec.allocated } := by
  simp [GetStat, TSKVsPartGetNumberOfSectors, TSKVolumeGetBytesPerSector,
    TSKVsPartIsAllocated]

/-- Evaluation of `_GetStat` on the virtual entry. -/
theorem GetStat_eq_virtual (p : Option TskVsPart) (vol : TskVolume) :
    GetStat true p vol =
      Except.ok
        { size :=
            match p with
            | some rec =>
                match rec.len with
                | some n => if n ≠ 0 then some (n * vol.bytesPerSector)
                            else none
                | none => none
            | none => none,
          type := some StatType.directory,
          is_allocated := none } := by
  simp [GetStat, TSKVsPartGetNumberOfSectors, TSKVolumeGetBytesPerSector]

/-- The zero-length native record used to refute the original C5. -/
def exampleZeroLenPart : TskVsPart :=
  { allocated := true, start := some 1, len := some 0 }

/-- A one-record volume used by the stat examples. -/
def exampleStatVol : TskVolume :=
  { bytesPerSector := 512, parts := [exampleZeroLenPart] }

/-- C5 counterexample: a non-virtual entry whose record reports a number of
sectors equal to zero gets an unknown size from `_GetStat`, not the size
`0 * bytes_per_sector` the claim requires, because the code tests the
sector count for truthiness and a reported zero counts as absent. -/
theorem C5_counterexample :
    TSKVsPartGetNumberOfSectors exampleZeroLenPart = some 0 ∧
    GetStat false (some exampleZeroLenPart) exampleStatVol =
      Except.ok { size := none, type := some StatType.file,
                  is_allocated := some true } ∧
    (none : Option Nat) ≠
      some (0 * exampleStatVol.bytesPerSector) := by
  refine ⟨rfl, ?_, by decide⟩
  rw [GetStat_eq_nonvirtual]
  rfl

/-- C5 (amended): the stat summary's size is
`number_of_sectors * bytes_per_sector` when the record reports a nonzero
number of sectors, and unknown otherwise (including when the record
reports zero sectors); the type is file for non-virtual entries and
directory for the virtual root; the allocation status is copied from the
native record for non-virtual entries and left unset for virtual ones. -/
theorem C5_stat_fields (is_virtual : Bool) (p : Option TskVsPart)
    (vol : TskVolume) (hp : is_virtual = false → p.isSome = true) :
    ∃ st, GetStat is_virtual p vol = Except.ok st ∧
      (∀ rec n, p = some rec → rec.len = some n → n ≠ 0 →
        st.size = some (n * vol.bytesPerSector)) ∧
      (∀ rec, p = some rec → rec.len = some 0 → st.size = none) ∧
      (∀ rec, p = some rec → rec.len = none → st.size = none) ∧
      (is_virtual = true → st.type = some StatType.directory) ∧
      (is_virtual = false → st.type = some StatType.file) ∧
      (is_virtual = false → ∀ rec, p = some rec →
        st.is_allocated = some rec.allocated) ∧
      (is_virtual = true → st.is_allocated = none) := by
  cases is_virtual with
  | false =>
      cases p with
      | none => simp at hp
      | some rec =>
          refine ⟨_, GetStat_eq_nonvirtual rec vol, ?_, ?_, ?_,
            by simp, by simp, ?_, by simp⟩
          · intro rec2 n hrec hlen hn
            cases hrec
            simp [hlen, hn]
          · intro rec2 hrec hlen
            cases hrec
            simp [hlen]
          · intro rec2 hrec hlen
            cases hrec
            simp [hlen]
          · intro _ rec2 hrec
            cases hrec
            simp
  | true =>
      refine ⟨_, GetStat_eq_virtual p vol, ?_, ?_, ?_,
        by simp, by simp, by simp, by simp⟩
      · intro rec n hrec hlen hn
        cases hrec
        simp [hlen, hn]
      · intro rec hrec hlen
        cases hrec
        simp [hlen]
      · intro rec hrec hlen
        cases hrec
        simp [hlen]

/-- A 100-sector allocated record for the stat witness. -/
def examplePart100 : TskVsPart :=
  { allocated := true, start := some 1, len := some 100 }

/-- An empty example volume with 512-byte sectors. -/
def exampleEmptyVol : TskVolume :=
  { bytesPerSector := 512, parts := [] }

/-- Witness for C5 at a concrete non-virtual entry whose record reports 100
sectors of 512 bytes. -/
theorem C5_stat_fields_witness :
    ∃ st, GetStat false (some examplePart100) exampleEmptyVol =
        Except.ok st ∧
      (∀ rec n, (some examplePart100 : Option TskVsPart) = some rec →
        rec.len = some n → n ≠ 0 →
        st.size = some (n * exampleEmptyVol.bytesPerSector)) ∧
      (∀ rec, (some examplePart100 : Option TskVsPart) = some rec →
        rec.len = some 0 → st.size = none) ∧
      (∀ rec, (some examplePart100 : Option TskVsPart) = some rec →
        rec.len = none → st.size = none) ∧
      (false = true → st.type = some StatType.directory) ∧
      (false = false → st.type = some StatType.file) ∧
      (false = false → ∀ rec, (some examplePart100 : Option TskVsPart) =
        some rec → st.is_allocated = some rec.allocated) ∧
      (false = true → st.is_allocated = none) :=
  C5_stat_fields false (some examplePart100) exampleEmptyVol
    (fun _ => rfl)

/-- C7: retrieving the stat of a non-virtual entry whose native record
cannot be located fails with a backend error, while the virtual entry with
no native record gets a stat object without an error. -/
theorem C7_missing_record (vol : TskVolume) :
    GetStat false none vol = Except.error BackEndError.missingTskVsPart ∧
    ∃ st, GetStat true none vol = Except.ok st := by
  refine ⟨by simp [GetStat], _, GetStat_eq_virtual none vol⟩

/-- An opened parent file object, identified abstractly: the model only
needs identity to track which handle is closed. -/
structure FileObject where
  id : Nat
deriving DecidableEq, Repr

/-- A member of a TAR archive (`tarfile.TarInfo`): the code uses only its
name, which carries no leading path separator. -/
structure TarInfo where
  name : String
deriving DecidableEq, Repr

/-- An opened TAR file (`tarfile.TarFile`): its members in archive
order. -/
structure TarFile where
  members : List TarInfo
deriving DecidableEq, Repr

/-- The errors the open paths distinguish: `errors.PathSpecError` for a
descriptor missing a required parent, a resolver failure opening the
parent, and a native decode failure (`tarfile.open` raising). -/
inductive OpenError where
  | pathSpecError
  | resolverError
  | decodeError
deriving DecidableEq, Repr

/-- The environment `TARFileSystem._Open` runs in: the outcome of
`resolver.Resolver.OpenFileObject` on the parent descriptor, and the
outcome of `tarfile.open` on the resulting file object. -/
structure TarOpenEnv where
  resolveParent : Except OpenError FileObject
  tarOpen : FileObject → Except OpenError TarFile

/-- The observable outcome of `TARFileSystem._Open`: the result (on
success the `_file_object` and `_tar_file` assigned on the file system),
how many times the resolver was invoked, and which file objects were
closed during the call. -/
structure TarOpenResult where
  result : Except OpenError (FileObject × TarFile)
  resolverCalls : Nat
  closed : List FileObject
deriving Repr

/-- `TARFileSystem._Open` (tar_file_system.py lines 50-79): fail with a
path-specification error when the descriptor has no parent; otherwise
resolve the parent's file object; then open the TAR file on it, closing
the parent file object and re-raising when `tarfile.open` fails. -/
def TARFileSystem.Open (hasParent : Bool) (env : TarOpenEnv) :
    TarOpenResult :=
  if hasParent = false then
    { result := Except.error OpenError.pathSpecError,
      resolverCalls := 0, closed := [] }
  else
    match env.resolveParent with
    | Except.error e =>
        { result := Except.error e, resolverCalls := 1, closed := [] }
    | Except.ok file_object =>
        match env.tarOpen file_object with
        | Except.error e =>
            { result := Except.error e, resolverCalls := 1,
              closed := [file_object] }
        | Except.ok tar_file =>
            { result := Except.ok (file_object, tar_file),
              resolverCalls := 1, closed := [] }

/-- An opened VHD handle: the pyvhdi file object bound to the parent file
object it reads from. -/
structure VhdiHandle where
  parent : FileObject
deriving DecidableEq, Repr

/-- The environment `VhdiFile._OpenFileObject` runs in: the outcome of
`resolver.Resolver.OpenFileObject` on the parent descriptor. -/
structure VhdiOpenEnv where
  resolveParent : Except OpenError FileObject

/-- The observable outcome of `VhdiFile._OpenFileObject`: the result, how
many times the resolver was invoked, and how many pyvhdi file objects were
constructed. -/
structure VhdiOpenResult where
  result : Except OpenError VhdiHandle
  resolverCalls : Nat
  vhdiConstructions : Nat
deriving Repr

/-- `VhdiFile._OpenFileObject` (vhdi_file_io.py lines 34-57): fail with a
path-specification error when the descriptor has no parent; otherwise
resolve the parent's file object, construct a pyvhdi file object and open
it against the parent stream. -/
def VhdiFile.OpenFileObject (hasParent : Bool) (env : VhdiOpenEnv) :
    VhdiOpenResult :=
  if hasParent = false then
    { result := Except.error OpenError.pathSpecError,
      resolverCalls := 0, vhdiConstructions := 0 }
  else
    match env.resolveParent with
    | Except.error e =>
        { result := Except.error e, resolverCalls := 1,
          vhdiConstructions := 0 }
    | Except.ok file_object =>
        { result := Except.ok { parent := file_object },
          resolverCalls := 1, vhdiConstructions := 1 }

/-- C3: when the parent's file object has been acquired and the TAR layer
factory then fails, `_Open` closes the acquired parent file object and
propagates the error, so the handle is not leaked. -/
theorem C3_no_leak_on_factory_failure (env : TarOpenEnv) (fo : FileObject)
    (e : OpenError) (hres : env.resolveParent = Except.ok fo)
    (hfail : env.tarOpen fo = Except.error e) :
    (TARFileSystem.Open true env).result = Except.error e ∧
    fo ∈ (TARFileSystem.Open true env).closed := by
  simp [TARFileSystem.Open, hres, hfail]

/-- An environment whose TAR factory always fails, used as the C3
witness. -/
def exampleFailingTarEnv : TarOpenEnv :=
  { resolveParent := Except.ok { id := 3 },
    tarOpen := fun _ => Except.error OpenError.decodeError }

/-- Witness for C3 on a concrete environment whose factory fails. -/
theorem C3_no_leak_on_factory_failure_witness :
    (TARFileSystem.Open true exampleFailingTarEnv).result =
      Except.error OpenError.decodeError ∧
    ({ id := 3 } : FileObject) ∈
      (TARFileSystem.Open true exampleFailingTarEnv).closed :=
  C3_no_leak_on_factory_failure exampleFailingTarEnv { id := 3 }
    OpenError.decodeError rfl rfl

/-- C4: opening a TAR file system or a VHD file object on a descriptor
without a parent fails with the invalid-descriptor error before any parent
resolution or decoder factory invocation. -/
theorem C4_fail_fast_without_parent (tarEnv : TarOpenEnv)
    (vhdiEnv : VhdiOpenEnv) :
    (TARFileSystem.Open false tarEnv).result =
      Except.error OpenError.pathSpecError ∧
    (TARFileSystem.Open false tarEnv).resolverCalls = 0 ∧
    (TARFileSystem.Open false tarEnv).closed = [] ∧
    (VhdiFile.OpenFileObject false vhdiEnv).result =
      Except.error OpenError.pathSpecError ∧
    (VhdiFile.OpenFileObject false vhdiEnv).resolverCalls = 0 ∧
    (VhdiFile.OpenFileObject false vhdiEnv).vhdiConstructions = 0 := by
  refine ⟨rfl, rfl, rfl, rfl, rfl, rfl⟩

/-- The TAR file system's root location (`TARFileSystem.LOCATION_ROOT`,
tar_file_system.py line 23). -/
def TARFileSystem.LOCATION_ROOT : String :=
  "/"

/-- Python `s.startswith(pre)` over the string's characters. -/
def strStartsWith (s pre : String) : Bool :=
  pre.data.isPrefixOf s.data

/-- The Python slice `s[1:]`: the string without its first character. -/
def strTail (s : String) : String :=
  String.mk (s.data.drop 1)

/-- Python `len(s)` over the string's characters. -/
def strLen (s : String) : Nat :=
  s.data.length

/-- `tarfile.TarFile.getmember`: the member whose name matches, scanning
from the end so the last of several same-named members wins; `none` models
the `KeyError` for an absent name. -/
def getmember (members : List TarInfo) (name : String) : Option TarInfo :=
  members.reverse.find? (fun m => m.name == name)

/-- A TAR path specification (`path.TARPathSpec`): the attribute the file
system reads is the optional location. -/
structure TARPathSpec where
  location : Option String
deriving DecidableEq, Repr

/-- A TAR file entry (`vfs.tar_file_entry.TARFileEntry`) as constructed by
the file system: its path specification, the root and virtual flags and
the optional native member record. -/
structure TARFileEntry where
  path_spec : TARPathSpec
  is_root : Bool
  is_virtual : Bool
  tar_info : Option TarInfo
deriving DecidableEq, Repr

/-- `TARFileSystem.FileEntryExistsByPathSpec` (tar_file_system.py lines
81-112): no location or a location outside the root is absent; the root
location itself exists; otherwise the location exists when a member with
that name exists, or when some member's name has the location (without its
leading separator) as a prefix. -/
def FileEntryExistsByPathSpec (tar : TarFile) (ps : TARPathSpec) : Bool :=
  match ps.location with
  | none => false
  | some location =>
      if strStartsWith location TARFileSystem.LOCATION_ROOT = false then
        false
      else if strLen location = 1 then true
      else if (getmember tar.members (strTail location)).isSome then true
      else tar.members.any (fun m => strStartsWith m.name (strTail location))

/-- `TARFileSystem.GetFileEntryByPathSpec` (tar_file_system.py lines
114-140): `none` when the entry does not exist; the virtual root entry for
the root location; an entry with the native member when the name resolves;
a virtual entry when the location only prefixes member names. -/
def GetFileEntryByPathSpec (tar : TarFile) (ps : TARPathSpec) :
    Option TARFileEntry :=
  if FileEntryExistsByPathSpec tar ps = false then none
  else
    match ps.location with
    | none => none
    | some location =>
        if strLen location = 1 then
          some { path_spec := ps, is_root := true, is_virtual := true,
                 tar_info := none }
        else
          match getmember tar.members (strTail location) with
          | some ti =>
              some { path_spec := ps, is_root := false, is_virtual := false,
                     tar_info := some ti }
          | none =>
              some { path_spec := ps, is_root := false, is_virtual := true,
                     tar_info := none }

/-- Evaluation of `FileEntryExistsByPathSpec` on a descriptor with a
location. -/
theorem fileEntryExists_eval (tar : TarFile) (ps : TARPathSpec)
    (loc : String) (hloc : ps.location = some loc) :
    FileEntryExistsByPathSpec tar ps =
      (if strStartsWith loc TARFileSystem.LOCATION_ROOT = false then false
       else if strLen loc = 1 then true
       else if (getmember tar.members (strTail loc)).isSome then true
       else tar.members.any
         (fun m => strStartsWith m.name (strTail loc))) := by
  unfold FileEntryExistsByPathSpec
  rw [hloc]

/-- Evaluation of `GetFileEntryByPathSpec` on a descriptor with a
location. -/
theorem getFileEntry_eval (tar : TarFile) (ps : TARPathSpec)
    (loc : String) (hloc : ps.location = some loc) :
    GetFileEntryByPathSpec tar ps =
      (if FileEntryExistsByPathSpec tar ps = false then none
       else if strLen loc = 1 then
         some { path_spec := ps, is_root := true, is_virtual := true,
                tar_info := none }
       else
         match getmember tar.members (strTail loc) with
         | some ti =>
             some { path_spec := ps, is_root := false, is_virtual := false,
                    tar_info := some ti }
         | none =>
             some { path_spec := ps, is_root := false, is_virtual := true,
                    tar_info := none }) := by
  unfold GetFileEntryByPathSpec
  rw [hloc]

/-- C6: a descriptor whose location exists nowhere in the opened container
(not the root, no member has the name, no member name is prefixed by it)
gets `false` from `FileEntryExistsByPathSpec` and `none` from
`GetFileEntryByPathSpec`; both are total functions, so the absent case is
never escalated to an error. -/
theorem C6_absent_location (tar : TarFile) (ps : TARPathSpec) (loc : String)
    (hloc : ps.location = some loc)
    (hroot : strStartsWith loc TARFileSystem.LOCATION_ROOT = true →
      strLen loc ≠ 1)
    (hmem : getmember tar.members (strTail loc) = none)
    (hpre : ∀ m ∈ tar.members,
      strStartsWith m.name (strTail loc) = false) :
    FileEntryExistsByPathSpec tar ps = false ∧
    GetFileEntryByPathSpec tar ps = none := by
  have hex : FileEntryExistsByPathSpec tar ps = false := by
    rw [fileEntryExists_eval tar ps loc hloc]
    cases hs : strStartsWith loc TARFileSystem.LOCATION_ROOT with
    | false => simp
    | true =>
        simp only [hs, Bool.true_eq_false, if_false, hroot hs, if_neg,
          hmem, Option.isSome_none, ite_false, Bool.false_eq_true]
        simp only [List.any_eq_false]
        intro m hm
        simp [hpre m hm]
  refine ⟨hex, ?_⟩
  rw [getFileEntry_eval tar ps loc hloc]
  simp [hex]

/-- The example TAR file with a single member `foo/bar`. -/
def exampleTarFile : TarFile :=
  { members := [{ name := "foo/bar" }] }

/-- Witness for C6 at the location `/baz`, absent from the example TAR. -/
theorem C6_absent_location_witness :
    FileEntryExistsByPathSpec exampleTarFile { location := some "/baz" } =
      false ∧
    GetFileEntryByPathSpec exampleTarFile { location := some "/baz" } =
      none :=
  C6_absent_location exampleTarFile { location := some "/baz" } "/baz" rfl
    (fun _ => by decide) (by decide) (by decide)

/-- C10: retrieval and existence agree — `GetFileEntryByPathSpec` returns
an entry exactly when `FileEntryExistsByPathSpec` is true; the root
location yields the virtual root entry; and a location that only prefixes
an existing member's name exists and yields a virtual entry with no native
record. -/
theorem C10_get_iff_exists (tar : TarFile) (ps : TARPathSpec) :
    ((GetFileEntryByPathSpec tar ps).isSome = true ↔
      FileEntryExistsByPathSpec tar ps = true) ∧
    (∀ loc, ps.location = some loc →
      strStartsWith loc TARFileSystem.LOCATION_ROOT = true →
      strLen loc = 1 →
      GetFileEntryByPathSpec tar ps =
        some { path_spec := ps, is_root := true, is_virtual := true,
               tar_info := none }) ∧
    (∀ loc, ps.location = some loc →
      strStartsWith loc TARFileSystem.LOCATION_ROOT = true →
      strLen loc ≠ 1 →
      getmember tar.members (strTail loc) = none →
      (∃ m ∈ tar.members, strStartsWith m.name (strTail loc) = true) →
      FileEntryExistsByPathSpec tar ps = true ∧
      GetFileEntryByPathSpec tar ps =
        some { path_spec := ps, is_root := false, is_virtual := true,
               tar_info := none }) := by
  refine ⟨?_, ?_, ?_⟩
  · cases hex : FileEntryExistsByPathSpec tar ps with
    | false =>
        unfold GetFileEntryByPathSpec
        simp [hex]
    | true =>
        cases hlc : ps.location with
        | none =>
            exfalso
            unfold FileEntryExistsByPathSpec at hex
            rw [hlc] at hex
            exact Bool.false_ne_true hex
        | some loc =>
            rw [getFileEntry_eval tar ps loc hlc]
            by_cases hl : strLen loc = 1
            · simp [hex, hl]
            · cases hm : getmember tar.members (strTail loc) <;>
                simp [hex, hl, hm]
  · intro loc hloc hsw hlen
    have hex : FileEntryExistsByPathSpec tar ps = true := by
      rw [fileEntryExists_eval tar ps loc hloc]
      simp [hsw, hlen]
    rw [getFileEntry_eval tar ps loc hloc]
    simp [hex, hlen]
  · intro loc hloc hsw hlen hmem hpre
    have hex : FileEntryExistsByPathSpec tar ps = true := by
      rw [fileEntryExists_eval tar ps loc hloc]
      rw [if_neg (by simp [hsw]), if_neg hlen, if_neg (by simp [hmem])]
      rw [List.any_eq_true]
      obtain ⟨m, hm, hsw2⟩ := hpre
      exact ⟨m, hm, hsw2⟩
    refine ⟨hex, ?_⟩
    rw [getFileEntry_eval tar ps loc hloc]
    simp [hex, hlen, hmem]

/-- Witness for C10: `/fo` only prefixes the member `foo/bar` of the
example TAR and yields a virtual entry. -/
theorem C10_get_iff_exists_witness :
    FileEntryExistsByPathSpec exampleTarFile { location := some "/fo" } =
      true ∧
    GetFileEntryByPathSpec exampleTarFile { location := some "/fo" } =
      some { path_spec := { location := some "/fo" }, is_root := false,
             is_virtual := true, tar_info := none } :=
  (C10_get_iff_exists exampleTarFile { location := some "/fo" }).2.2 "/fo"
    rfl (by decide) (by decide) (by decide)
    ⟨{ name := "foo/bar" }, by decide, by decide⟩
/-- An opened TSK partition file object
(`file_io.tsk_partition_file_io.TSKPartitionFile`): the volume and the
optional native record it was constructed on, and whether it has been
opened. -/
structure TSKPartitionFile where
  volume : TskVolume
  part : Option TskVsPart
  isOpen : Bool
deriving DecidableEq, Repr

/-- The mutable per-entry state `GetFileObject` reads and writes: the
cached `_file_object` and the cached `_tsk_vs_part`. -/
structure TSKEntryState where
  file_object : Option TSKPartitionFile
  tsk_vs_part : Option TskVsPart
deriving DecidableEq, Repr

/-- The outcome of one `GetFileObject` call: the returned handle, the
entry's state afterwards, and how many file objects the call
constructed. -/
structure GetFileObjectResult where
  fileObject : TSKPartitionFile
  state : TSKEntryState
  constructions : Nat
deriving DecidableEq, Repr

/-- `TSKPartitionFileEntry.GetFileObject` (tsk_partition_file_entry.py
lines 186-196): when `_file_object` is cached return it; otherwise fill
`_tsk_vs_part` from the descriptor lookup if needed, construct a
`TSKPartitionFile` on the volume and record, open it and cache it.  The
descriptor lookup result (`GetTSKVsPart`) is passed in as `lookup`. -/
def GetFileObject (lookup : Option TskVsPart) (vol : TskVolume)
    (s : TSKEntryState) : GetFileObjectResult :=
  match s.file_object with
  | some fo => { fileObject := fo, state := s, constructions := 0 }
  | none =>
      let part :=
        match s.tsk_vs_part with
        | some p => some p
        | none => lookup
      let fo : TSKPartitionFile :=
        { volume := vol, part := part, isOpen := true }
      { fileObject := fo,
        state := { file_object := some fo, tsk_vs_part := part },
        constructions := 1 }

/-- C9: on an entry with no cached file object the first `GetFileObject`
call constructs exactly one handle and caches it; every later call on the
resulting entry state returns the identical handle, leaves the state
unchanged and constructs nothing. -/
theorem C9_file_object_cached_once (lookup : Option TskVsPart)
    (vol : TskVolume) (s : TSKEntryState) (h : s.file_object = none) :
    (GetFileObject lookup vol s).constructions = 1 ∧
    (∀ lookup2 vol2,
      GetFileObject lookup2 vol2 (GetFileObject lookup vol s).state =
        { fileObject := (GetFileObject lookup vol s).fileObject,
          state := (GetFileObject lookup vol s).state,
          constructions := 0 }) := by
  refine ⟨?_, ?_⟩
  · unfold GetFileObject
    rw [h]
  · intro lookup2 vol2
    unfold GetFileObject
    rw [h]

/-- Witness for C9 on a fresh entry state over the example volume. -/
theorem C9_file_object_cached_once_witness :
    (GetFileObject none exampleVol3
        { file_object := none, tsk_vs_part := none }).constructions = 1 ∧
    (∀ lookup2 vol2,
      GetFileObject lookup2 vol2
          (GetFileObject none exampleVol3
            { file_object := none, tsk_vs_part := none }).state =
        { fileObject := (GetFileObject none exampleVol3
            { file_object := none, tsk_vs_part := none }).fileObject,
          state := (GetFileObject none exampleVol3
            { file_object := none, tsk_vs_part := none }).state,
          constructions := 0 }) :=
  C9_file_object_cached_once none exampleVol3
    { file_object := none, tsk_vs_part := none } rfl

/-- An observable step of the enumerator's interaction with the native
volume: reading the record at a structural index from the native iterator,
or producing a synthesized path specification. -/
inductive VolEvent (α : Type) where
  | readRecord (i : Nat)
  | emitSpec (s : TSKPartitionPathSpec α)
deriving DecidableEq, Repr

/-- The order of operations of `_EntriesGenerator`
(tsk_partition_file_entry.py lines 59-79): the code first materializes
`list(tsk_volume)` — reading every native record, in on-disk order, before
anything is yielded (the comment explains the native iterator is unsafe) —
and only then loops over the list yielding one path specification per
record. -/
def EntriesGeneratorTrace (ps : TSKPartitionPathSpec α) (vol : TskVolume) :
    List (VolEvent α) :=
  if ps.part_index.isSome || ps.start_offset.isSome then []
  else if ps.location ≠ some LOCATION_ROOT then []
  else
    (List.range vol.parts.length).map VolEvent.readRecord ++
      (entriesLoop ps.parent (TSKVolumeGetBytesPerSector vol)
        vol.parts 0 0).map VolEvent.emitSpec

/-- Whether an event is a native-record read. -/
def VolEvent.isRead : VolEvent α → Bool
  | VolEvent.readRecord _ => true
  | VolEvent.emitSpec _ => false

/-- Whether some native-record read happens after some emitted path
specification — the signature of a lazy, record-by-record walk.  A trace
that reads all records up front (bulk materialization) has none. -/
def readAfterEmit : List (VolEvent α) → Bool
  | [] => false
  | VolEvent.emitSpec _ :: rest => rest.any VolEvent.isRead
  | VolEvent.readRecord _ :: rest => readAfterEmit rest

/-- C8 counterexample: on the three-record example volume the enumerator's
trace reads all three native records before emitting the first path
specification — `list(tsk_volume)` materializes the records in bulk — so
enumeration is not a lazy non-materializing walk of the native records. -/
theorem C8_counterexample :
    (EntriesGeneratorTrace exampleRootSpec exampleVol3).countP
        (fun e => e.isRead) = 3 ∧
    ((EntriesGeneratorTrace exampleRootSpec exampleVol3).take 3).all
        (fun e => e.isRead) = true ∧
    readAfterEmit (EntriesGeneratorTrace exampleRootSpec exampleVol3) =
      false := by
  refine ⟨by decide, by decide, by decide⟩

/-- C8 (amended): each enumeration request re-walks the native volume from
the start — the trace begins by reading records `0, 1, …, n-1` in on-disk
order, reusing nothing from a previous walk — but the records are
materialized in bulk: every read precedes every emitted path
specification, and the emitted specifications are exactly the
enumeration's output. -/
theorem C8_trace_shape (vol : TskVolume) (ps : TSKPartitionPathSpec α)
    (hloc : ps.location = some LOCATION_ROOT)
    (hpi : ps.part_index = none) (hso : ps.start_offset = none) :
    EntriesGeneratorTrace ps vol =
      (List.range vol.parts.length).map VolEvent.readRecord ++
        (EntriesGenerator ps vol).map VolEvent.emitSpec ∧
    readAfterEmit (EntriesGeneratorTrace ps vol) = false := by
  have htr : EntriesGeneratorTrace ps vol =
      (List.range vol.parts.length).map VolEvent.readRecord ++
        (entriesLoop ps.parent (TSKVolumeGetBytesPerSector vol)
          vol.parts 0 0).map VolEvent.emitSpec := by
    unfold EntriesGeneratorTrace
    simp [hloc, hpi, hso]
  have hgen : EntriesGenerator ps vol =
      entriesLoop ps.parent (TSKVolumeGetBytesPerSector vol)
        vol.parts 0 0 := by
    unfold EntriesGenerator
    simp [hloc, hpi, hso]
  refine ⟨by rw [htr, hgen], ?_⟩
  rw [htr]
  have hreads : ∀ (l : List Nat) (tail : List (VolEvent α)),
      readAfterEmit (l.map VolEvent.readRecord ++ tail) =
        readAfterEmit tail := by
    intro l
    induction l with
    | nil => intro tail; rfl
    | cons x xs ih => intro tail; simpa [readAfterEmit] using ih tail
  rw [hreads]
  have hemits : ∀ (l : List (TSKPartitionPathSpec α)),
      readAfterEmit (l.map VolEvent.emitSpec) = false := by
    intro l
    induction l with
    | nil => rfl
    | cons x xs ih =>
        simp only [List.map_cons, readAfterEmit, List.any_eq_false]
        intro e he
        simp only [List.mem_map] at he
        obtain ⟨sp, _, hsp⟩ := he
        rw [← hsp]
        simp [VolEvent.isRead]
  exact hemits _

/-- Witness for C8's amended trace shape at the example volume. -/
theorem C8_trace_shape_witness :
    EntriesGeneratorTrace exampleRootSpec exampleVol3 =
      (List.range exampleVol3.parts.length).map VolEvent.readRecord ++
        (EntriesGenerator exampleRootSpec exampleVol3).map
          VolEvent.emitSpec ∧
    readAfterEmit (EntriesGeneratorTrace exampleRootSpec exampleVol3) =
      false :=
  C8_trace_shape exampleVol3 exampleRootSpec rfl rfl rfl

end DFVFS
